import Mathlib

/-!
Shallow embedding of the Battery-Sim-Python core (src/utils.py, src/lab2.py).

Numbers are modelled as rationals, parameter sets as partial maps from
parameter names to rationals, solver outputs as lists of per-cycle
variable-to-samples maps, and Python exceptions as `Except String`.
-/

namespace BatterySim

/-- A parameter set: a partial map from parameter name to numeric value
(models a `pybamm.ParameterValues` dictionary). -/
def Params : Type := String → Option ℚ

/-- `parameters.update({k: v})` on a single key: point update of the map. -/
def Params.update (p : Params) (k : String) (v : ℚ) : Params :=
  fun s => if s = k then some v else p s

/-- One named plotted trace: `{"name": ..., "fname"?: ..., "values": [...]}`. -/
structure Series where
  name : String
  fname : Option String
  values : List ℚ
deriving DecidableEq

/-- One cycle of a solver Solution: variable name to its sample list
(models `cycle[variable_name].entries.tolist()`). -/
def PyCycle : Type := String → List ℚ

/-- A solver Solution: `solution.cycles` is an ordered list of cycles. -/
structure Solution where
  cycles : List PyCycle

/-- The fixed front-end-title to base-parameter-set table (`batteries` in utils.py). -/
def batteries : List (String × String) :=
  [("NMC", "Mohtat2020"),
   ("NCA", "NCA_Kim2011"),
   ("LFP", "Prada2013"),
   ("LG M50", "OKane2022"),
   ("Silicon", "Chen2020_composite"),
   ("LFPBackup", "Ecker2015")]

/-- `get_voltage_limits` from utils.py: returns `(minV, maxV)` for the three
chemistries with limits; the Python function falls through and returns `None`
for any other name, modelled as `none`. -/
def get_voltage_limits (battery_type : String) : Option (ℚ × ℚ) :=
  if battery_type = "LFP" then some (2.5, 3.65)
  else if battery_type = "NMC" then some (3, 4.2)
  else if battery_type = "NCA" then some (2.5, 4.3)
  else none

/-- `np.linspace lo hi n` with endpoint semantics: `n` evenly spaced points
from `lo` to `hi` inclusive; `[lo]` when `n = 1`, empty when `n = 0`. -/
def linspace (lo hi : ℚ) (n : ℕ) : List ℚ :=
  if n = 0 then []
  else if n = 1 then [lo]
  else (List.range n).map (fun i : ℕ => lo + (hi - lo) * (i : ℚ) / ((n : ℚ) - 1))

/-- The flattening loop of `plot_against_cycle`: concatenate one variable's
samples across all cycles in cycle order. -/
def flattenVar (solution : Solution) (variable_name : String) : List ℚ :=
  (solution.cycles.map (fun cycle => cycle variable_name)).flatten

/-- `plot_against_cycle` from utils.py: one Cycle-axis Series followed by the
flattened value Series for the requested variable. -/
def plot_against_cycle (solution : Solution) (number_of_cycles : ℚ)
    (variable_name : String) (func_name : String) : List Series :=
  let function := flattenVar solution variable_name
  let cycles_array := linspace 0 number_of_cycles function.length
  [⟨"Cycle", none, cycles_array⟩,
   ⟨variable_name, some func_name, function⟩]

/-- `plot_graphs_against_cycle` from utils.py. `variables` is the ordered
dict of variable name to display name; `y_axis_name` starts as `None` and is
assigned the current variable's name the first time it is found to be `None`,
after which it is never reset — modelled by threading the option through the
recursion. -/
def plot_graphs_against_cycle (solution : Solution) (number_of_cycles : ℚ)
    (var_list : List (String × String)) (y_axis_name : Option String) :
    List Series :=
  match var_list with
  | [] => []
  | (variable_name, fname) :: rest =>
      let y := match y_axis_name with
        | none => variable_name
        | some s => s
      let function := flattenVar solution variable_name
      let cycles_array := linspace 0 number_of_cycles function.length
      ⟨"Cycle", none, cycles_array⟩ ::
        ⟨y, some fname, function⟩ ::
        plot_graphs_against_cycle solution number_of_cycles rest (some y)

/-- `update_parameters` from utils.py. Python mutates `parameters` in place;
here the updated map is returned. A missing base capacity or electrode height
makes the Python arithmetic raise a `TypeError` on `None`, and a base nominal
capacity of zero makes `capacity / nominal_capacity` raise a
`ZeroDivisionError`; both are modelled as `Except.error`. `if x:` on a
numeric-or-None value is truthy exactly when the value is present and
non-zero. -/
def update_parameters (parameters : Params)
    (temperature capacity posElectrodeThickness silicon_percent : Option ℚ) :
    Except String Params :=
  let p1 : Params :=
    match temperature with
    | some t => if t = 0 then parameters
                else Params.update parameters "Ambient temperature [K]" t
    | none => parameters
  let step2 : Except String Params :=
    match capacity with
    | some c =>
        if c = 0 then Except.ok p1
        else
          match p1 "Nominal cell capacity [A.h]", p1 "Electrode height [m]" with
          | some nominal_capacity, some nominal_height =>
              if nominal_capacity = 0 then
                Except.error "float division by zero"
              else
                Except.ok (Params.update p1 "Electrode height [m]"
                  (nominal_height * (c / nominal_capacity)))
          | _, _ => Except.error "unsupported operand type: NoneType"
    | none => Except.ok p1
  match step2 with
  | Except.error e => Except.error e
  | Except.ok p2 =>
      let p3 : Params :=
        match posElectrodeThickness with
        | some th => if th = 0 then p2
                     else Params.update p2 "Positive electrode thickness [m]" th
        | none => p2
      let p4 : Params :=
        match silicon_percent with
        | some sp =>
            if sp = 0 then p3
            else
              let half := sp * (1 / 2)
              Params.update
                (Params.update p3
                  "Primary: Negative electrode active material volume fraction"
                  (1 - half))
                "Secondary: Negative electrode active material volume fraction"
                half
        | none => p3
      Except.ok p4

/-- Python `str.capitalize`: first character upper-cased, the rest lower-cased. -/
def pyCapitalize (s : String) : String :=
  match s.data with
  | [] => ""
  | c :: cs => String.mk (c.toUpper :: cs.map Char.toLower)

/-- One single-step rate-sweep experiment, modelling the string
`f"<action> at {c_rate + 0.01}C for 100 hours or until <cutoff> V"`. -/
structure ExperimentInstruction where
  action : String
  c_rate : ℚ
  max_hours : ℚ
  cutoff_voltage : ℚ
deriving DecidableEq

/-- The per-rate experiment built inside the `run_charging_experiments` loop:
charge terminates at `maxV`, anything else discharges and terminates at `minV`. -/
def sweep_instruction (mode : String) (minV maxV c_rate : ℚ) :
    ExperimentInstruction :=
  if mode = "Charge" then ⟨"Charge", c_rate + 1 / 100, 100, maxV⟩
  else ⟨"Discharge", c_rate + 1 / 100, 100, minV⟩

/-- The error produced when `get_voltage_limits` returns `None` and the tuple
unpacking `minV, maxV = ...` in `run_charging_experiments` raises; this is the
spec's `NoVoltageLimits` failure. -/
def noVoltageLimitsMsg : String :=
  "cannot unpack non-iterable NoneType object"

/-- `run_charging_experiments` from utils.py, with the external solver
abstracted as a function from (experiment, initial state of charge) to the
(capacity samples, voltage samples) it returns. The result models the list
`[{"title": ...}, {"graphs": [...]}]`. -/
def run_charging_experiments
    (solve : ExperimentInstruction → ℚ → List ℚ × List ℚ)
    (battery_type : String) (c_rates : List ℚ) (mode : String) :
    Except String (String × List Series) :=
  match get_voltage_limits battery_type with
  | none => Except.error noVoltageLimitsMsg
  | some (minV, maxV) =>
      let title := (pyCapitalize mode).dropRight 1 ++ "ing at different C Rates"
      let graphs := c_rates.foldl
        (fun acc c_rate =>
          let instr := sweep_instruction mode minV maxV c_rate
          let initial_soc : ℚ := if mode = "Charge" then 0 else 1
          let y_axis_label : String :=
            if mode = "Charge" then "Throughput capacity [A.h]"
            else "Discharge capacity [A.h]"
          let res := solve instr initial_soc
          acc ++ [⟨y_axis_label, none, res.1⟩,
                  ⟨"Voltage [V]", some (toString c_rate ++ "C"), res.2⟩])
        []
      Except.ok (title, graphs)

/-- The recognized fields of a lab2 request body: `data.get(...)` yields
`None` for an absent field, modelled with `Option`. -/
structure Lab2Request where
  temperature : Option ℚ
  c_rates : Option (List ℚ)
  silicon_percent : Option ℚ

/-- The fixed six-key `parameters.update({...})` block at the top of
`simulate_lab2`. -/
def lab2_fixed_overrides (p : Params) : Params :=
  ((((((p.update
    "Primary: Maximum concentration in negative electrode [mol.m-3]" 28700).update
    "Primary: Initial concentration in negative electrode [mol.m-3]" 23000).update
    "Primary: Negative electrode diffusivity [m2.s-1]" (55 / 1000000000000000)).update
    "Secondary: Negative electrode diffusivity [m2.s-1]" (167 / 10000000000000000)).update
    "Secondary: Initial concentration in negative electrode [mol.m-3]" 277000).update
    "Secondary: Maximum concentration in negative electrode [mol.m-3]" 278000)

/-- The variable-to-display-name dict `plots` in `simulate_lab2`. -/
def lab2_plots : List (String × String) :=
  [("Total lithium in positive electrode [mol]", "Positive"),
   ("Total lithium in negative electrode [mol]", "Negative"),
   ("Total lithium [mol]", "Total")]

/-- The body of the `try:` block of `simulate_lab2` (src/lab2.py): merge the
request's overrides into the Chen2020_composite base set, run the external
solver, and reduce the Solution into two titled graph groups. `baseParams`
stands for `pybamm.ParameterValues("Chen2020_composite")` and `solve` for the
model construction plus `sim.solve`, either of which may raise. -/
def simulate_lab2_pipeline (baseParams : Params)
    (solve : Params → Except String Solution) (req : Lab2Request) :
    Except String (List (String × List Series)) := do
  let cycles : ℚ := 3
  let parameters := lab2_fixed_overrides baseParams
  let parameters ← update_parameters parameters req.temperature none none
    req.silicon_percent
  let sol ← solve parameters
  let experiment_result1 :=
    ("Total Lithium in electrodes", plot_graphs_against_cycle sol 3 lab2_plots none)
  let experiment_result2 :=
    ("Capacity over Cycles",
      plot_against_cycle sol cycles "Throughput capacity [A.h]" "Capacity")
  pure [experiment_result1, experiment_result2]

/-- `simulate_lab2`: the whole pipeline runs inside `try: ... except Exception
as e: return jsonify(["ERROR: " + str(e)])`, so any failure becomes the
single-element error body and a success becomes the graph-group list. -/
def simulate_lab2 (baseParams : Params)
    (solve : Params → Except String Solution) (req : Lab2Request) :
    List String ⊕ List (String × List Series) :=
  match simulate_lab2_pipeline baseParams solve req with
  | Except.ok final_result => Sum.inr final_result
  | Except.error e => Sum.inl ["ERROR: " ++ e]

lemma linspace_length (lo hi : ℚ) (n : ℕ) : (linspace lo hi n).length = n := by
  unfold linspace
  rcases Nat.eq_zero_or_pos n with h0 | hpos
  · simp [h0]
  · rcases Nat.lt_or_ge n 2 with h1 | h2
    · have h1' : n = 1 := by omega
      simp [h1']
    · have hn0 : n ≠ 0 := by omega
      have hn1 : n ≠ 1 := by omega
      rw [if_neg hn0, if_neg hn1]
      rw [List.length_map, List.length_range]

lemma linspace_getElem (lo hi : ℚ) (n i : ℕ) (h2 : 2 ≤ n) (h3 : i < n) :
    (linspace lo hi n)[i]? = some (lo + (hi - lo) * i / ((n : ℚ) - 1)) := by
  have hn0 : n ≠ 0 := by omega
  have hn1 : n ≠ 1 := by omega
  have h : linspace lo hi n =
      (List.range n).map (fun i : ℕ => lo + (hi - lo) * (i : ℚ) / ((n : ℚ) - 1)) := by
    unfold linspace
    rw [if_neg hn0, if_neg hn1]
  rw [h]
  simp [List.getElem?_map, List.getElem?_range, h3]

lemma linspace_zero (lo hi : ℚ) : linspace lo hi 0 = [] := rfl

/-- **C1.** For every Solution and target variable name, `plot_against_cycle`
produces exactly two Series: the value Series is the concatenation of that
variable's samples across all cycles in cycle order (splitting the cycle list
anywhere splits the flattened values at the matching point, and its length is
the sum of the per-cycle sample counts), and the synthetic Cycle axis Series
has the same length as the flattened Series and is the linear spacing from 0
to the requested cycle count: when it has at least two points it starts at 0,
ends at the requested cycle count, and has constant consecutive spacing. -/
theorem C1_flatten_and_cycle_axis (solution : Solution) (N : ℚ)
    (v f : String) :
    (plot_against_cycle solution N v f).map Series.values =
      [linspace 0 N (flattenVar solution v).length, flattenVar solution v] ∧
    (∀ pre post, solution.cycles = pre ++ post →
      flattenVar solution v = flattenVar ⟨pre⟩ v ++ flattenVar ⟨post⟩ v) ∧
    (flattenVar solution v).length =
      (solution.cycles.map (fun c => (c v).length)).sum ∧
    (linspace 0 N (flattenVar solution v).length).length =
      (flattenVar solution v).length ∧
    (∀ n, n = (flattenVar solution v).length → 2 ≤ n →
      (linspace 0 N n)[0]? = some 0 ∧
      (linspace 0 N n)[n - 1]? = some N ∧
      (∀ i a b, i + 1 < n → (linspace 0 N n)[i]? = some a →
        (linspace 0 N n)[i + 1]? = some b → b - a = N / ((n : ℚ) - 1))) := by
  refine ⟨rfl, ?_, ?_, linspace_length 0 N _, ?_⟩
  · intro pre post h
    simp [flattenVar, h]
  · simp [flattenVar, Function.comp_def]
  · intro n hn h2
    have hn1 : ((n : ℚ) - 1) ≠ 0 := by
      have : (2 : ℚ) ≤ (n : ℚ) := by exact_mod_cast h2
      intro hc
      nlinarith
    refine ⟨?_, ?_, ?_⟩
    · rw [linspace_getElem 0 N n 0 h2 (by omega)]
      simp
    · rw [linspace_getElem 0 N n (n - 1) h2 (by omega)]
      congr 1
      have : ((n - 1 : ℕ) : ℚ) = (n : ℚ) - 1 := by
        have : 1 ≤ n := by omega
        push_cast [this]
        ring
      rw [this]
      field_simp
    · intro i a b hi ha hb
      rw [linspace_getElem 0 N n i h2 (by omega)] at ha
      rw [linspace_getElem 0 N n (i + 1) h2 hi] at hb
      have ha' : a = 0 + (N - 0) * i / ((n : ℚ) - 1) := by
        exact (Option.some.injEq _ _).mp ha.symm
      have hb' : b = 0 + (N - 0) * (i + 1 : ℕ) / ((n : ℚ) - 1) := by
        exact (Option.some.injEq _ _).mp hb.symm
      rw [ha', hb']
      push_cast
      field_simp
      ring

/-- **C8.** An empty Solution (zero cycles) yields zero-length Series from the
reducer — both the Cycle axis Series and the flattened value Series are empty —
rather than an error. -/
theorem C8_empty_solution (N : ℚ) (v f : String) :
    plot_against_cycle ⟨[]⟩ N v f =
      [⟨"Cycle", none, []⟩, ⟨v, some f, []⟩] := by
  simp [plot_against_cycle, flattenVar, linspace_zero]

/-- **C2.** Merging leaves the whole base set unchanged when every override is
absent or zero; a non-zero temperature override rewrites exactly the ambient
temperature field to the override value, and a non-zero positive-electrode
thickness override rewrites exactly that field, leaving every other key
untouched. -/
theorem C2_merge_override_policy (p : Params) :
    update_parameters p none none none none = Except.ok p ∧
    update_parameters p (some 0) (some 0) (some 0) (some 0) = Except.ok p ∧
    (∀ t : ℚ, t ≠ 0 →
      update_parameters p (some t) none none none =
        Except.ok (p.update "Ambient temperature [K]" t) ∧
      (p.update "Ambient temperature [K]" t) "Ambient temperature [K]" = some t ∧
      ∀ k, k ≠ "Ambient temperature [K]" →
        (p.update "Ambient temperature [K]" t) k = p k) ∧
    (∀ th : ℚ, th ≠ 0 →
      update_parameters p none none (some th) none =
        Except.ok (p.update "Positive electrode thickness [m]" th) ∧
      (p.update "Positive electrode thickness [m]" th)
          "Positive electrode thickness [m]" = some th ∧
      ∀ k, k ≠ "Positive electrode thickness [m]" →
        (p.update "Positive electrode thickness [m]" th) k = p k) := by
  refine ⟨rfl, ?_, ?_, ?_⟩
  · simp [update_parameters]
  · intro t ht
    refine ⟨?_, ?_, ?_⟩
    · simp [update_parameters, if_neg ht]
    · simp [Params.update]
    · intro k hk
      simp [Params.update, hk]
  · intro th hth
    refine ⟨?_, ?_, ?_⟩
    · simp [update_parameters, if_neg hth]
    · simp [Params.update]
    · intro k hk
      simp [Params.update, hk]

/-- A concrete base parameter set used as a witness input for the merge
theorems. -/
def witnessBase : Params :=
  fun k =>
    if k = "Ambient temperature [K]" then some 300
    else if k = "Nominal cell capacity [A.h]" then some 1
    else if k = "Electrode height [m]" then some 1
    else none

/-- Witness for C2: merging all-zero overrides into a concrete base leaves it
unchanged; merging temperature 298 sets the field to 298, thickness 1/2 sets
that field. -/
theorem C2_merge_override_policy_witness :
    update_parameters witnessBase (some 0) (some 0) (some 0) (some 0) =
      Except.ok witnessBase ∧
    update_parameters witnessBase (some 298) none none none =
      Except.ok (witnessBase.update "Ambient temperature [K]" 298) ∧
    (witnessBase.update "Ambient temperature [K]" 298)
      "Ambient temperature [K]" = some 298 ∧
    update_parameters witnessBase none none (some (1 / 2)) none =
      Except.ok (witnessBase.update "Positive electrode thickness [m]" (1 / 2)) :=
  ⟨(C2_merge_override_policy witnessBase).2.1,
   ((C2_merge_override_policy witnessBase).2.2.1 298 (by norm_num)).1,
   ((C2_merge_override_policy witnessBase).2.2.1 298 (by norm_num)).2.1,
   ((C2_merge_override_policy witnessBase).2.2.2 (1 / 2) (by norm_num)).1⟩

/-- A base set carrying existing negative-electrode volume fractions, used to
exhibit the silicon-percentage boundary behaviour at `p = 0`. -/
def siliconBase : Params :=
  fun k =>
    if k = "Primary: Negative electrode active material volume fraction"
      then some (7 / 10)
    else if k = "Secondary: Negative electrode active material volume fraction"
      then some (3 / 10)
    else none

/-- **C6 counterexample.** At silicon percentage `p = 0` (which lies in the
claimed range `[0, 1]`), the merge derives nothing: the parameter set is
returned unchanged, so the primary volume fraction keeps its base value
`7/10`, which differs from the claimed derived value `1 - 0/2 = 1`. -/
theorem C6_counterexample :
    update_parameters siliconBase none none none (some 0) =
      Except.ok siliconBase ∧
    siliconBase "Primary: Negative electrode active material volume fraction" =
      some (7 / 10) ∧
    (7 : ℚ) / 10 ≠ 1 - 0 / 2 := by
  refine ⟨?_, rfl, by norm_num⟩
  simp [update_parameters]

/-- **C6 (amended).** For any non-zero silicon-percentage input `p` (in
particular any `p` in `(0, 1]`), the merge derives the two negative-electrode
volume fractions `(1 - p/2, p/2)`, and the two derived fractions sum to
exactly 1. -/
theorem C6_silicon_split (p : Params) (sp : ℚ) (h : sp ≠ 0) :
    (update_parameters p none none none (some sp)).map
        (fun q =>
          (q "Primary: Negative electrode active material volume fraction",
           q "Secondary: Negative electrode active material volume fraction")) =
      Except.ok (some (1 - sp / 2), some (sp / 2)) ∧
    (1 - sp / 2) + sp / 2 = 1 := by
  constructor
  · simp only [update_parameters, if_neg h]
    simp [Params.update, Except.map]
    ring_nf
  · ring

/-- Witness for C6 (amended) at `p = 1/2`: the derived fractions are
`(3/4, 1/4)` and sum to 1. -/
theorem C6_silicon_split_witness :
    (update_parameters siliconBase none none none (some (1 / 2))).map
        (fun q =>
          (q "Primary: Negative electrode active material volume fraction",
           q "Secondary: Negative electrode active material volume fraction")) =
      Except.ok (some (1 - (1 / 2 : ℚ) / 2), some ((1 / 2 : ℚ) / 2)) ∧
    (1 - (1 / 2 : ℚ) / 2) + (1 / 2 : ℚ) / 2 = 1 :=
  C6_silicon_split siliconBase (1 / 2) (by norm_num)

/-- **C7.** When the base set has a non-zero nominal capacity and an electrode
height, a non-zero capacity override sets the electrode height to
`baseHeight * (requestedCapacity / baseCapacity)` (a zero base capacity makes
the Python ratio raise a `ZeroDivisionError` instead, so it is excluded). -/
theorem C7_capacity_override (p : Params) (c ncap nh : ℚ) (hc : c ≠ 0)
    (hncap : ncap ≠ 0)
    (h1 : p "Nominal cell capacity [A.h]" = some ncap)
    (h2 : p "Electrode height [m]" = some nh) :
    (update_parameters p none (some c) none none).map
        (fun q => q "Electrode height [m]") =
      Except.ok (some (nh * (c / ncap))) := by
  simp [update_parameters, if_neg hc, if_neg hncap, h1, h2, Params.update,
    Except.map]

/-- Witness for C7: base capacity 1 and height 1 with requested capacity 2
yield electrode height `1 * (2 / 1) = 2`. -/
theorem C7_capacity_override_witness :
    (update_parameters witnessBase none (some 2) none none).map
        (fun q => q "Electrode height [m]") =
      Except.ok (some (1 * ((2 : ℚ) / 1))) :=
  C7_capacity_override witnessBase 2 1 1 (by norm_num) (by norm_num) rfl rfl

/-- A concrete cycle with 3 samples for variable "V". -/
def wCycle1 : PyCycle := fun s => if s = "V" then [1, 2, 3] else []

/-- A concrete cycle with 5 samples for variable "V". -/
def wCycle2 : PyCycle := fun s => if s = "V" then [4, 5, 6, 7, 8] else []

/-- Witness for C1 on the spec's `[3, 5]` example: the flattened Series is the
first cycle's 3 samples followed by the second cycle's 5 samples (length 8),
and the 8-point Cycle axis runs from 0 to the requested cycle count 2. -/
theorem C1_flatten_and_cycle_axis_witness :
    flattenVar ⟨[wCycle1, wCycle2]⟩ "V" =
      flattenVar ⟨[wCycle1]⟩ "V" ++ flattenVar ⟨[wCycle2]⟩ "V" ∧
    (flattenVar ⟨[wCycle1, wCycle2]⟩ "V").length = 8 ∧
    (linspace 0 2 8)[0]? = some 0 ∧
    (linspace 0 2 8)[7]? = some 2 := by
  have h := C1_flatten_and_cycle_axis ⟨[wCycle1, wCycle2]⟩ 2 "V" ""
  have hlen : (8 : ℕ) = (flattenVar ⟨[wCycle1, wCycle2]⟩ "V").length := by
    decide
  have hends := h.2.2.2.2 8 hlen (by norm_num)
  exact ⟨h.2.1 [wCycle1] [wCycle2] rfl, hlen.symm, hends.1, hends.2.1⟩

/-- When `get_voltage_limits` returns `None`, the tuple unpacking in
`run_charging_experiments` fails before any experiment is built. -/
lemma run_charging_no_limits (solve : ExperimentInstruction → ℚ → List ℚ × List ℚ)
    (battery_type : String) (c_rates : List ℚ) (mode : String)
    (h : get_voltage_limits battery_type = none) :
    run_charging_experiments solve battery_type c_rates mode =
      Except.error noVoltageLimitsMsg := by
  unfold run_charging_experiments
  rw [h]

/-- **C3.** The rate-sweep voltage limits are the fixed lookup LFP ↦
(2.5, 3.65), NMC ↦ (3, 4.2), NCA ↦ (2.5, 4.3); the discharge experiment built
for LFP terminates at 2.5 V and the charge experiment built for NMC at 4.2 V;
any chemistry outside these three has no limits and the sweep fails. -/
theorem C3_voltage_limit_lookup :
    get_voltage_limits "LFP" = some (2.5, 3.65) ∧
    get_voltage_limits "NMC" = some (3, 4.2) ∧
    get_voltage_limits "NCA" = some (2.5, 4.3) ∧
    (∀ minV maxV c_rate : ℚ, get_voltage_limits "LFP" = some (minV, maxV) →
      (sweep_instruction "Discharge" minV maxV c_rate).cutoff_voltage = 2.5) ∧
    (∀ minV maxV c_rate : ℚ, get_voltage_limits "NMC" = some (minV, maxV) →
      (sweep_instruction "Charge" minV maxV c_rate).cutoff_voltage = 4.2) ∧
    (∀ bt, bt ∉ (["LFP", "NMC", "NCA"] : List String) →
      get_voltage_limits bt = none ∧
      ∀ solve c_rates mode,
        run_charging_experiments solve bt c_rates mode =
          Except.error noVoltageLimitsMsg) := by
  refine ⟨rfl, rfl, rfl, ?_, ?_, ?_⟩
  · intro minV maxV c_rate h
    have hm : minV = 2.5 := by
      have := (Option.some.injEq _ _).mp h.symm
      exact congrArg Prod.fst this
    simp [sweep_instruction, hm]
  · intro minV maxV c_rate h
    have hm : maxV = 4.2 := by
      have := (Option.some.injEq _ _).mp h.symm
      exact congrArg Prod.snd this
    simp [sweep_instruction, hm]
  · intro bt hbt
    simp only [List.mem_cons, List.not_mem_nil, or_false, not_or] at hbt
    obtain ⟨h1, h2, h3⟩ := hbt
    have hnone : get_voltage_limits bt = none := by
      unfold get_voltage_limits
      rw [if_neg h1, if_neg h2, if_neg h3]
    exact ⟨hnone, fun solve c_rates mode =>
      run_charging_no_limits solve bt c_rates mode hnone⟩

/-- Witness for C3: the LFP discharge cutoff is 2.5, the NMC charge cutoff is
4.2, and the unlisted chemistry "LG M50" makes the sweep fail. -/
theorem C3_voltage_limit_lookup_witness :
    (sweep_instruction "Discharge" 2.5 3.65 1).cutoff_voltage = 2.5 ∧
    (sweep_instruction "Charge" 3 4.2 1).cutoff_voltage = 4.2 ∧
    run_charging_experiments (fun _ _ => ([], [])) "LG M50" [1] "Discharge" =
      Except.error noVoltageLimitsMsg :=
  ⟨C3_voltage_limit_lookup.2.2.2.1 2.5 3.65 1 rfl,
   C3_voltage_limit_lookup.2.2.2.2.1 3 4.2 1 rfl,
   (C3_voltage_limit_lookup.2.2.2.2.2 "LG M50" (by decide)).2
     (fun _ _ => ([], [])) [1] "Discharge"⟩

/-- **C4 counterexample.** Sweeping an empty C-rate list does not fail: for
chemistry "LFP" in discharge mode the builder returns a normal result — a
title and an empty graphs list — so no `EmptyRateList` failure exists. -/
theorem C4_counterexample :
    run_charging_experiments (fun _ _ => ([], [])) "LFP" [] "Discharge" =
      Except.ok ("Discharging at different C Rates", []) := by
  rfl

/-- **C4 (amended).** The rate-sweep builder performs no empty-list check: for
any chemistry that has voltage limits, sweeping zero rates returns a normal
result whose graphs list is empty (the only failure in the builder is the
missing-voltage-limits one). -/
theorem C4_empty_rates_ok (solve : ExperimentInstruction → ℚ → List ℚ × List ℚ)
    (bt mode : String) (mn mx : ℚ) (h : get_voltage_limits bt = some (mn, mx)) :
    run_charging_experiments solve bt [] mode =
      Except.ok ((pyCapitalize mode).dropRight 1 ++ "ing at different C Rates",
        []) := by
  unfold run_charging_experiments
  rw [h]
  rfl

/-- Witness for C4 (amended) at chemistry "NMC" in charge mode. -/
theorem C4_empty_rates_ok_witness :
    run_charging_experiments (fun _ _ => ([], [])) "NMC" [] "Charge" =
      Except.ok ("Charging at different C Rates", []) :=
  C4_empty_rates_ok (fun _ _ => ([], [])) "NMC" "Charge" 3 4.2 rfl

/-- **C5.** Every failure raised anywhere in the lab2 pipeline — parameter
merge errors or a solver failure — is caught at the request boundary and
becomes exactly the single-element body `["ERROR: " ++ message]`; a successful
pipeline returns its graph groups untouched, so no partial output and no
unhandled fault can escape. -/
theorem C5_error_envelope (base : Params)
    (solve : Params → Except String Solution) (req : Lab2Request) :
    (∀ e, simulate_lab2_pipeline base solve req = Except.error e →
      simulate_lab2 base solve req = Sum.inl ["ERROR: " ++ e] ∧
      (["ERROR: " ++ e] : List String).length = 1) ∧
    (∀ r, simulate_lab2_pipeline base solve req = Except.ok r →
      simulate_lab2 base solve req = Sum.inr r) := by
  constructor
  · intro e he
    exact ⟨by simp [simulate_lab2, he], rfl⟩
  · intro r hr
    simp [simulate_lab2, hr]

/-- Witness for C5: a solver that raises "boom" yields exactly the body
`["ERROR: boom"]`. -/
theorem C5_error_envelope_witness :
    simulate_lab2 (fun _ => none) (fun _ => Except.error "boom")
      ⟨none, none, none⟩ = Sum.inl ["ERROR: boom"] :=
  ((C5_error_envelope (fun _ => none) (fun _ => Except.error "boom")
    ⟨none, none, none⟩).1 "boom" rfl).1

/-- In the multi-variable reducer, once the y-axis name is a concrete string
it is threaded unchanged: every value Series of the remaining variables
carries that same name, with the per-variable display name in `fname`. -/
lemma plot_graphs_fixed_y (solution : Solution) (N : ℚ) (y : String) :
    ∀ (vl : List (String × String)) (i : ℕ) (pr : String × String),
      vl[i]? = some pr →
      (plot_graphs_against_cycle solution N vl (some y))[2 * i + 1]? =
        some ⟨y, some pr.2, flattenVar solution pr.1⟩ := by
  intro vl
  induction vl with
  | nil => intro i pr h; simp at h
  | cons hd tl ih =>
      intro i pr h
      match i with
      | 0 =>
          simp at h
          simp [plot_graphs_against_cycle, ← h]
      | j + 1 =>
          simp at h
          have : 2 * (j + 1) + 1 = (2 * j + 1) + 1 + 1 := by ring
          rw [this]
          simpa [plot_graphs_against_cycle] using ih j pr h

/-- **C9.** With no explicit y-axis name, `plot_graphs_against_cycle` captures
the first requested variable's name on the first iteration and never resets
it: the value Series produced for the `i`-th requested variable — the Series
at position `2 i + 1` of the output — is named after the *first* variable,
while its `fname` annotation is the `i`-th variable's display name. -/
theorem C9_y_axis_captured_from_first (solution : Solution) (N : ℚ)
    (v0 f0 : String) (rest : List (String × String)) (i : ℕ)
    (pr : String × String) (h : (((v0, f0) :: rest) : List (String × String))[i]? = some pr) :
    (plot_graphs_against_cycle solution N ((v0, f0) :: rest) none)[2 * i + 1]? =
      some ⟨v0, some pr.2, flattenVar solution pr.1⟩ := by
  match i with
  | 0 =>
      simp at h
      simp [plot_graphs_against_cycle, ← h]
  | j + 1 =>
      simp at h
      have : 2 * (j + 1) + 1 = (2 * j + 1) + 1 + 1 := by ring
      rw [this]
      simpa [plot_graphs_against_cycle] using
        plot_graphs_fixed_y solution N v0 rest j pr h

/-- Witness for C9: with variables `[("A", "fa"), ("B", "fb")]` and no
explicit y-axis name, the second variable's value Series is named "A" — the
first variable's name — while its `fname` is "fb". -/
theorem C9_y_axis_captured_from_first_witness :
    (plot_graphs_against_cycle ⟨[]⟩ 3 [("A", "fa"), ("B", "fb")] none)[3]? =
      some ⟨"A", some "fb", flattenVar ⟨[]⟩ "B"⟩ :=
  C9_y_axis_captured_from_first ⟨[]⟩ 3 "A" "fa" [("B", "fb")] 1 ("B", "fb") rfl

/-- **C10.** Every chemistry in the base-parameter table outside
{LFP, NMC, NCA} has no voltage limits, so its rate sweep fails even though a
base parameter set exists; the three chemistries with limits all have base
sets, and the containment is strict ("LG M50" has a base set but no limits). -/
theorem C10_limits_strictly_inside_chemistries :
    (∀ name, name ∈ batteries.map Prod.fst →
      name ∉ (["LFP", "NMC", "NCA"] : List String) →
      get_voltage_limits name = none ∧
      ∀ solve c_rates mode,
        run_charging_experiments solve name c_rates mode =
          Except.error noVoltageLimitsMsg) ∧
    (∀ name, name ∈ (["LFP", "NMC", "NCA"] : List String) →
      name ∈ batteries.map Prod.fst ∧ (get_voltage_limits name).isSome) ∧
    "LG M50" ∈ batteries.map Prod.fst ∧ get_voltage_limits "LG M50" = none := by
  refine ⟨?_, by decide, by decide, rfl⟩
  intro name hmem hnot
  simp only [List.mem_cons, List.not_mem_nil, or_false, not_or] at hnot
  obtain ⟨h1, h2, h3⟩ := hnot
  have hnone : get_voltage_limits name = none := by
    unfold get_voltage_limits
    rw [if_neg h1, if_neg h2, if_neg h3]
  exact ⟨hnone, fun solve c_rates mode =>
    run_charging_no_limits solve name c_rates mode hnone⟩

/-- Witness for C10 at the supported chemistry "Silicon", which has a base
parameter set but no voltage limits, so its sweep fails. -/
theorem C10_limits_strictly_inside_chemistries_witness :
    get_voltage_limits "Silicon" = none ∧
    run_charging_experiments (fun _ _ => ([], [])) "Silicon" [1] "Charge" =
      Except.error noVoltageLimitsMsg :=
  ⟨(C10_limits_strictly_inside_chemistries.1 "Silicon" (by decide) (by decide)).1,
   (C10_limits_strictly_inside_chemistries.1 "Silicon" (by decide) (by decide)).2
     (fun _ _ => ([], [])) [1] "Charge"⟩

end BatterySim
